import Mathlib

/-!
Verification development for the concentric-ellipse signed-distance script
(`dist-ellipses.py`).  The Python floating-point functions are embedded
shallowly over the real numbers: pure arithmetic becomes real arithmetic,
`math.radians`, `math.sin`, `math.cos`, `math.tan`, `math.sqrt` and
`math.hypot` become their exact real counterparts, and every operation that
can raise in Python (division by zero, square root of a negative number)
returns an `Option`, with `none` standing for the raised error.

The module-level globals `a1 b1 a2 b2 T lT` that the Python functions close
over are threaded through as explicit parameters; in particular the quadrant
correction inside the intersector reads the global line angle `lT`, so the
embedded function takes `lT` as an argument.
-/

open scoped Classical

noncomputable section

/-- `math.radians`: degrees to radians. -/
def radians (t : ℝ) : ℝ := t * Real.pi / 180

/-- Source `get_position_y_at_angle(x, t)`: `tan(radians(t)) * x`. -/
def get_position_y_at_angle (x t : ℝ) : ℝ := Real.tan (radians t) * x

/-- Source `get_position_x_at_angle(y, t)`: `y / tan(radians(t))`; Python
raises `ZeroDivisionError` when the tangent is zero, modelled as `none`. -/
def get_position_x_at_angle (y t : ℝ) : Option ℝ :=
  if Real.tan (radians t) = 0 then none else some (y / Real.tan (radians t))

/-- Source `get_ellipse_x_rational(u, a)`: `a * (1 - u**2) / (u**2 + 1)`. -/
def get_ellipse_x_rational (u a : ℝ) : ℝ := a * (1 - u ^ 2) / (u ^ 2 + 1)

/-- Source `get_ellipse_y_rational(u, b)`: `(2*b*u) / (u**2 + 1)`. -/
def get_ellipse_y_rational (u b : ℝ) : ℝ := (2 * b * u) / (u ^ 2 + 1)

/-- Source `get_ellipse_x_standard(t, a)`. -/
def get_ellipse_x_standard (t a : ℝ) : ℝ := a * Real.cos (radians t)

/-- Source `get_ellipse_y_standard(t, b)`. -/
def get_ellipse_y_standard (t b : ℝ) : ℝ := b * Real.sin (radians t)

/-- Source `get_ellipse_x_rotated(t, a, b, r)`. -/
def get_ellipse_x_rotated (t a b r : ℝ) : ℝ :=
  a * Real.cos (radians t) * Real.cos (radians r) -
    b * Real.sin (radians t) * Real.sin (radians r)

/-- Source `get_ellipse_y_rotated(t, a, b, r)`. -/
def get_ellipse_y_rotated (t a b r : ℝ) : ℝ :=
  a * Real.cos (radians t) * Real.sin (radians r) +
    b * Real.sin (radians t) * Real.cos (radians r)

/-- The leading coefficient `A` of the quadratic in `x` in the general branch
of `get_line_ellipse_x_intercept_rotated` (source lines 137-138), with
`m = tan(radians(t))` inlined. -/
def intercept_A (t a b r : ℝ) : ℝ :=
  b ^ 2 * (Real.cos (radians r) ^ 2 +
      2 * Real.tan (radians t) * Real.cos (radians r) * Real.sin (radians r) +
      Real.tan (radians t) ^ 2 * Real.sin (radians r) ^ 2) +
    a ^ 2 * (Real.tan (radians t) ^ 2 * Real.cos (radians r) ^ 2 -
      2 * Real.tan (radians t) * Real.cos (radians r) * Real.sin (radians r) +
      Real.sin (radians r) ^ 2)

/-- The coefficient `B` of the quadratic (source line 139): zero, because the
line passes through the origin. -/
def intercept_B : ℝ := 0

/-- The coefficient `C` of the quadratic (source line 140): `-1 * a**2 * b**2`. -/
def intercept_C (a b : ℝ) : ℝ := -1 * a ^ 2 * b ^ 2

/-- The general (else) branch of `get_line_ellipse_x_intercept_rotated`
(source lines 137-142): the positive root of the quadratic formula.  Python
raises on division by zero (`A = 0`) and on the square root of a negative
number; both are modelled as `none`. -/
def intercept_general_branch (t a b r : ℝ) : Option ℝ :=
  if intercept_A t a b r = 0 then none
  else if intercept_B ^ 2 - 4 * intercept_A t a b r * intercept_C a b < 0 then none
  else some ((-1 * intercept_B +
      Real.sqrt (intercept_B ^ 2 - 4 * intercept_A t a b r * intercept_C a b)) /
    (2 * intercept_A t a b r))

/-- Coefficient `A` of `get_line_ellipse_y_intercept_rotated` (source line 154). -/
def y_intercept_A (a b r : ℝ) : ℝ :=
  b ^ 2 * Real.sin (radians r) ^ 2 + a ^ 2 * Real.cos (radians r) ^ 2

/-- Coefficient `B` of `get_line_ellipse_y_intercept_rotated` (source line 155).
The source literally computes `2 * x * cos(rrad) * sin(b**2 - a**2)` - the
`sin` is applied to `b**2 - a**2`; the embedding reproduces this verbatim. -/
def y_intercept_B (a b r x : ℝ) : ℝ :=
  2 * x * Real.cos (radians r) * Real.sin (b ^ 2 - a ^ 2)

/-- Coefficient `C` of `get_line_ellipse_y_intercept_rotated` (source line 156). -/
def y_intercept_C (a b r x : ℝ) : ℝ :=
  x ^ 2 * (b ^ 2 * Real.cos (radians r) ^ 2 + a ^ 2 * Real.sin (radians r) ^ 2) -
    a ^ 2 * b ^ 2

/-- Source `get_line_ellipse_y_intercept_rotated(t, a, b, r, x)` (lines
151-159): solves the quadratic in `y`, then recovers `x` through
`get_position_x_at_angle(y, t)`.  Division by zero and negative square roots
are modelled as `none`. -/
def get_line_ellipse_y_intercept_rotated (t a b r x : ℝ) : Option ℝ :=
  if y_intercept_A a b r = 0 then none
  else if y_intercept_B a b r x ^ 2 - 4 * y_intercept_A a b r * y_intercept_C a b r x < 0
    then none
  else get_position_x_at_angle
    ((-1 * y_intercept_B a b r x +
        Real.sqrt (y_intercept_B a b r x ^ 2 -
          4 * y_intercept_A a b r * y_intercept_C a b r x)) /
      (2 * y_intercept_A a b r)) t

/-- The quadrant correction applied at the end of
`get_line_ellipse_x_intercept_rotated` (source lines 144-146).  Note the
source tests the module-level global `lT` (the configured line angle), not
the ray angle `t` passed to the function. -/
def quadrant_flip (lT x : ℝ) : ℝ := if 90 < lT ∧ lT ≤ 270 then -x else x

/-- Source `get_line_ellipse_x_intercept_rotated(t, a, b, r)` (lines 129-147),
with the global `lT` passed explicitly.  The branch condition `t == 90 or
r == 270` is reproduced verbatim from line 134. -/
def get_line_ellipse_x_intercept_rotated (t a b r lT : ℝ) : Option ℝ :=
  Option.map (quadrant_flip lT)
    (if t = 90 ∨ r = 270 then get_line_ellipse_y_intercept_rotated t a b r 0
     else intercept_general_branch t a b r)

/-- Source `get_line_ellipse_x_intercept_standard(t, a, b)` (line 123): calls
the rotated solver with rotation 0. -/
def get_line_ellipse_x_intercept_standard (t a b lT : ℝ) : Option ℝ :=
  get_line_ellipse_x_intercept_rotated t a b 0 lT

/-- Source `check_for_issues()` (lines 54-58), with the globals `T a2 b1`
explicit: returns `true` when the warning is written to stderr. -/
def check_for_issues (T a2 b1 : ℝ) : Bool :=
  if T = 90 ∧ a2 = b1 then true else false

/-- The elementwise signed-distance reduction of the sweep (source line 233):
`hypot(dx, dy) * (dx / abs(dx))`, `hypot` being the Euclidean norm.  The
division by `abs(dx)` is a genuine division by zero when `dx = 0`, modelled
as `none`. -/
def sweep_diff (dx dy : ℝ) : Option ℝ :=
  if |dx| = 0 then none else some (Real.sqrt (dx ^ 2 + dy ^ 2) * (dx / |dx|))

/-- One sample of the signed-distance sweep in `main` (source lines 222-233):
intersect the ray at angle `t` with the outer (non-rotated) and inner
(rotated) ellipses, take the componentwise difference, and reduce it with
`sweep_diff`. -/
def distance_sample (t a1 b1 a2 b2 T lT : ℝ) : Option ℝ :=
  Option.bind (get_line_ellipse_x_intercept_standard t a1 b1 lT) (fun xnorm =>
    Option.bind (get_line_ellipse_x_intercept_rotated t a2 b2 T lT) (fun xrot =>
      sweep_diff (xnorm - xrot)
        (get_position_y_at_angle xnorm t - get_position_y_at_angle xrot t)))

/-- `main` (source lines 163-233), reduced to its computational content: run
the pre-flight check, then compute a sweep sample.  The Bool records whether
the configuration warning was emitted; the sample does not depend on it. -/
def main_run (t a1 b1 a2 b2 T lT : ℝ) : Bool × Option ℝ :=
  (check_for_issues T a2 b1, distance_sample t a1 b1 a2 b2 T lT)

/-- Left-hand side of the implicit equation of the ellipse `(a, b)` rotated by
`r` degrees, as written in the specification:
`((x cos r + y sin r)/a)^2 + ((-x sin r + y cos r)/b)^2`. -/
def ellipse_implicit_lhs (x y a b r : ℝ) : ℝ :=
  ((x * Real.cos (radians r) + y * Real.sin (radians r)) / a) ^ 2 +
    ((-x * Real.sin (radians r) + y * Real.cos (radians r)) / b) ^ 2

/-- Modelled from the spec: the closed form for the non-rotated intersection,
`x = sqrt(a^2 b^2 / (b^2 + a^2 tan^2 t))`, used only to compare against the
algorithm (this formula appears commented out in source lines 115-118). -/
def closed_form_x (t a b : ℝ) : ℝ :=
  Real.sqrt (a ^ 2 * b ^ 2 / (b ^ 2 + a ^ 2 * Real.tan (radians t) ^ 2))

end

-- ----------------------------------------------------------------------
-- Basic facts about the embedding
-- ----------------------------------------------------------------------

lemma radians_zero : radians 0 = 0 := by unfold radians; ring

lemma radians_45 : radians 45 = Real.pi / 4 := by unfold radians; ring

lemma radians_90 : radians 90 = Real.pi / 2 := by unfold radians; ring

lemma radians_180 : radians 180 = Real.pi := by unfold radians; ring

lemma radians_270 : radians 270 = 3 * Real.pi / 2 := by unfold radians; ring

lemma tan_radians_zero : Real.tan (radians 0) = 0 := by
  rw [radians_zero, Real.tan_zero]

lemma tan_radians_180 : Real.tan (radians 180) = 0 := by
  rw [radians_180, Real.tan_pi]

lemma tan_radians_90 : Real.tan (radians 90) = 0 := by
  rw [radians_90, Real.tan_pi_div_two]

lemma sin_radians_270 : Real.sin (radians 270) = -1 := by
  rw [radians_270, show (3 : ℝ) * Real.pi / 2 = Real.pi + Real.pi / 2 by ring,
    Real.sin_add]
  simp

lemma cos_radians_270 : Real.cos (radians 270) = 0 := by
  rw [radians_270, show (3 : ℝ) * Real.pi / 2 = Real.pi + Real.pi / 2 by ring,
    Real.cos_add]
  simp

-- ----------------------------------------------------------------------
-- Shared helper lemmas
-- ----------------------------------------------------------------------

/-- The general-branch leading coefficient is a weighted sum of two squares. -/
lemma intercept_A_as_squares (t a b r : ℝ) :
    intercept_A t a b r =
      b ^ 2 * (Real.cos (radians r) + Real.tan (radians t) * Real.sin (radians r)) ^ 2 +
        a ^ 2 * (Real.tan (radians t) * Real.cos (radians r) - Real.sin (radians r)) ^ 2 := by
  unfold intercept_A
  ring

/-- For positive semi-axes the leading coefficient is strictly positive: the
two squares in `intercept_A_as_squares` cannot vanish simultaneously. -/
lemma intercept_A_pos (t a b r : ℝ) (ha : 0 < a) (hb : 0 < b) :
    0 < intercept_A t a b r := by
  rw [intercept_A_as_squares]
  set m := Real.tan (radians t) with hm
  set c := Real.cos (radians r) with hc
  set s := Real.sin (radians r) with hs
  have hcs : s ^ 2 + c ^ 2 = 1 := Real.sin_sq_add_cos_sq (radians r)
  have key : c + m * s ≠ 0 ∨ m * c - s ≠ 0 := by
    by_contra hcon
    push_neg at hcon
    obtain ⟨h1, h2⟩ := hcon
    have hs0 : s = 0 := by nlinarith [sq_nonneg s, sq_nonneg m, sq_nonneg (m * s)]
    have hc0 : c = 0 := by nlinarith
    rw [hs0, hc0] at hcs
    norm_num at hcs
  rcases key with h | h
  · have h1 : 0 < (c + m * s) ^ 2 := (sq_nonneg _).lt_of_ne (Ne.symm (pow_ne_zero 2 h))
    nlinarith [sq_nonneg (m * c - s), sq_nonneg a, sq_nonneg b, mul_pos (mul_pos hb hb) h1]
  · have h1 : 0 < (m * c - s) ^ 2 := (sq_nonneg _).lt_of_ne (Ne.symm (pow_ne_zero 2 h))
    nlinarith [sq_nonneg (c + m * s), mul_pos (mul_pos ha ha) h1]

/-- The discriminant of the general branch in closed form. -/
lemma intercept_disc_eq (t a b r : ℝ) :
    intercept_B ^ 2 - 4 * intercept_A t a b r * intercept_C a b =
      4 * intercept_A t a b r * a ^ 2 * b ^ 2 := by
  unfold intercept_B intercept_C
  ring

/-- With positive semi-axes the general branch always succeeds and returns
the positive root of the quadratic formula. -/
lemma intercept_general_branch_eq (t a b r : ℝ) (ha : 0 < a) (hb : 0 < b) :
    intercept_general_branch t a b r =
      some (Real.sqrt (4 * intercept_A t a b r * a ^ 2 * b ^ 2) /
        (2 * intercept_A t a b r)) := by
  have hA := intercept_A_pos t a b r ha hb
  have hdisc := intercept_disc_eq t a b r
  have hnonneg : 0 ≤ 4 * intercept_A t a b r * a ^ 2 * b ^ 2 := by positivity
  unfold intercept_general_branch
  rw [if_neg (ne_of_gt hA), if_neg (by rw [hdisc]; exact not_lt.mpr hnonneg), hdisc]
  congr 1
  unfold intercept_B
  ring_nf

/-- At ray angle zero the rotated intersector (rotation 0) returns the
horizontal semi-axis `a`, provided the global line angle does not trigger the
quadrant flip. -/
lemma intercept_rotated_at_zero (a b lT : ℝ) (ha : 0 < a) (hb : 0 < b)
    (hlT : ¬(90 < lT ∧ lT ≤ 270)) :
    get_line_ellipse_x_intercept_rotated 0 a b 0 lT = some a := by
  have hA : intercept_A 0 a b 0 = b ^ 2 := by
    unfold intercept_A
    rw [radians_zero]
    simp [Real.tan_zero]
  have hbranch := intercept_general_branch_eq 0 a b 0 ha hb
  rw [hA] at hbranch
  have hsqrt : Real.sqrt (4 * b ^ 2 * a ^ 2 * b ^ 2) = 2 * a * b ^ 2 := by
    rw [show 4 * b ^ 2 * a ^ 2 * b ^ 2 = (2 * a * b ^ 2) ^ 2 by ring]
    exact Real.sqrt_sq (by positivity)
  rw [hsqrt] at hbranch
  unfold get_line_ellipse_x_intercept_rotated
  rw [if_neg (by norm_num)]
  rw [hbranch, Option.map_some']
  unfold quadrant_flip
  rw [if_neg hlT]
  congr 1
  field_simp
  ring

/-- The vertical branch called with ray angle 90 always errors in the real
model: the final `get_position_x_at_angle` divides by `tan(radians(90))`,
which is zero for the idealized real tangent. -/
lemma y_intercept_at_90 (a b r x : ℝ) :
    get_line_ellipse_y_intercept_rotated 90 a b r x = none := by
  unfold get_line_ellipse_y_intercept_rotated
  split_ifs with h1 h2
  · rfl
  · rfl
  · unfold get_position_x_at_angle
    rw [if_pos tan_radians_90]

-- ----------------------------------------------------------------------
-- Claim theorems
-- ----------------------------------------------------------------------

/-- C6: For every a > 0, b > 0 and every parametric angle t, the rotated
ellipse parametrizer evaluated with rotation = 0 returns exactly the standard
parametric ellipse point (a*cos t, b*sin t). -/
theorem parametrizer_rotation_zero (t a b : ℝ) (ha : 0 < a) (hb : 0 < b) :
    get_ellipse_x_rotated t a b 0 = get_ellipse_x_standard t a ∧
      get_ellipse_y_rotated t a b 0 = get_ellipse_y_standard t b := by
  unfold get_ellipse_x_rotated get_ellipse_y_rotated get_ellipse_x_standard
    get_ellipse_y_standard
  rw [radians_zero]
  constructor <;> simp

theorem parametrizer_rotation_zero_witness :
    get_ellipse_x_rotated 45 2 1 0 = get_ellipse_x_standard 45 2 ∧
      get_ellipse_y_rotated 45 2 1 0 = get_ellipse_y_standard 45 1 :=
  parametrizer_rotation_zero 45 2 1 (by norm_num) (by norm_num)

/-- C7: The pre-flight configuration check warns exactly when
rotationAngle = 90 and a2 = b1, and the warning does not change the
computation: the sweep sample of `main_run` is `distance_sample` for every
configuration. -/
theorem check_warning_iff (T a2 b1 : ℝ) :
    ((T = 90 ∧ a2 = b1) → check_for_issues T a2 b1 = true) ∧
      (¬(T = 90 ∧ a2 = b1) → check_for_issues T a2 b1 = false) ∧
      ∀ t a1 b2 lT, (main_run t a1 b1 a2 b2 T lT).2 = distance_sample t a1 b1 a2 b2 T lT := by
  refine ⟨fun h => ?_, fun h => ?_, fun t a1 b2 lT => rfl⟩
  · unfold check_for_issues
    rw [if_pos h]
  · unfold check_for_issues
    rw [if_neg h]

theorem check_warning_iff_witness :
    check_for_issues 90 5 5 = true ∧
      (main_run 0 1 5 5 1 90 20).2 = distance_sample 0 1 5 5 1 90 20 :=
  ⟨(check_warning_iff 90 5 5).1 ⟨rfl, rfl⟩, (check_warning_iff 90 5 5).2.2 0 1 1 20⟩

/-- C8: The inverse ray evaluator x = y / tan(radians(t)) is ill-defined at
t = 0 and t = 180 degrees because the tangent is zero there; for every y these
inputs produce the division-by-zero domain error (none), not a numeric value. -/
theorem inverse_ray_horizontal_none :
    Real.tan (radians 0) = 0 ∧ Real.tan (radians 180) = 0 ∧
      ∀ y : ℝ, get_position_x_at_angle y 0 = none ∧ get_position_x_at_angle y 180 = none := by
  refine ⟨tan_radians_zero, tan_radians_180, fun y => ⟨?_, ?_⟩⟩
  · unfold get_position_x_at_angle
    rw [if_pos tan_radians_zero]
  · unfold get_position_x_at_angle
    rw [if_pos tan_radians_180]

/-- C10: For every real u and every a > 0, b > 0, the rational
parametrization point lies exactly on the un-rotated ellipse:
b^2 x(u)^2 + a^2 y(u)^2 = a^2 b^2, the denominator u^2 + 1 being nonzero. -/
theorem rational_on_ellipse (u a b : ℝ) (ha : 0 < a) (hb : 0 < b) :
    u ^ 2 + 1 ≠ 0 ∧
      b ^ 2 * get_ellipse_x_rational u a ^ 2 + a ^ 2 * get_ellipse_y_rational u b ^ 2 =
        a ^ 2 * b ^ 2 := by
  have hden : u ^ 2 + 1 ≠ 0 := by positivity
  refine ⟨hden, ?_⟩
  unfold get_ellipse_x_rational get_ellipse_y_rational
  field_simp
  ring

theorem rational_on_ellipse_witness :
    (1 : ℝ) ^ 2 + 1 ≠ 0 ∧
      (1 : ℝ) ^ 2 * get_ellipse_x_rational 1 2 ^ 2 +
          (2 : ℝ) ^ 2 * get_ellipse_y_rational 1 1 ^ 2 =
        (2 : ℝ) ^ 2 * 1 ^ 2 :=
  rational_on_ellipse 1 2 1 (by norm_num) (by norm_num)

/-- C9: For every a > 0, b > 0, rotation r and ray angle t, the leading
coefficient A of the general branch equals
b^2 (cos r + m sin r)^2 + a^2 (m cos r - sin r)^2 with m = tan(radians t),
hence A is nonnegative, the discriminant B^2 - 4AC equals 4 A a^2 b^2 and is
nonnegative (the square root never receives a negative argument), and the
general branch fails exactly when A = 0 (the division by 2A). -/
theorem general_branch_discriminant (t a b r : ℝ) (ha : 0 < a) (hb : 0 < b) :
    intercept_A t a b r =
        b ^ 2 * (Real.cos (radians r) + Real.tan (radians t) * Real.sin (radians r)) ^ 2 +
          a ^ 2 * (Real.tan (radians t) * Real.cos (radians r) - Real.sin (radians r)) ^ 2 ∧
      0 ≤ intercept_A t a b r ∧
      intercept_B ^ 2 - 4 * intercept_A t a b r * intercept_C a b =
        4 * intercept_A t a b r * a ^ 2 * b ^ 2 ∧
      0 ≤ 4 * intercept_A t a b r * a ^ 2 * b ^ 2 ∧
      (intercept_A t a b r = 0 → intercept_general_branch t a b r = none) ∧
      (intercept_A t a b r ≠ 0 →
        intercept_general_branch t a b r =
          some (Real.sqrt (4 * intercept_A t a b r * a ^ 2 * b ^ 2) /
            (2 * intercept_A t a b r))) := by
  have hA := intercept_A_pos t a b r ha hb
  refine ⟨intercept_A_as_squares t a b r, le_of_lt hA, intercept_disc_eq t a b r,
    by positivity, fun h0 => ?_, fun _ => intercept_general_branch_eq t a b r ha hb⟩
  unfold intercept_general_branch
  rw [if_pos h0]

theorem general_branch_discriminant_witness : 0 ≤ intercept_A 0 2 1 0 :=
  (general_branch_discriminant 0 2 1 0 (by norm_num) (by norm_num)).2.1

/-- C2: evaluation of the intersector at ray angle t = 180 (pointing into the
left half-plane) on the unit circle with rotation 0 and the script's default
global line angle lT = 20: the result is +1, not a nonpositive value, because
the quadrant correction (source line 145) tests the global lT instead of the
ray angle t. -/
theorem quadrant_global_lT_failing :
    get_line_ellipse_x_intercept_rotated 180 1 1 0 20 = some 1 ∧ ¬((1 : ℝ) ≤ 0) := by
  constructor
  · have hA : intercept_A 180 1 1 0 = 1 := by
      unfold intercept_A
      rw [radians_zero, tan_radians_180]
      simp
    have hbranch := intercept_general_branch_eq 180 1 1 0 (by norm_num) (by norm_num)
    rw [hA] at hbranch
    have hsqrt : Real.sqrt (4 * 1 * (1 : ℝ) ^ 2 * 1 ^ 2) = 2 := by
      rw [show (4 : ℝ) * 1 * 1 ^ 2 * 1 ^ 2 = 2 ^ 2 by norm_num]
      exact Real.sqrt_sq (by norm_num)
    rw [hsqrt] at hbranch
    unfold get_line_ellipse_x_intercept_rotated
    rw [if_neg (by norm_num), hbranch, Option.map_some']
    unfold quadrant_flip
    rw [if_neg (by norm_num)]
    norm_num
  · norm_num

/-- C5 (amended): when the two ellipses are identical and the rotation is
zero, the difference of the two intersection abscissas is identically zero,
so every sweep sample is the division-by-zero domain error (none), not the
number 0: the reduction divides by abs(delta.x) = 0. -/
theorem identical_ellipses_sample_undefined (t a b lT : ℝ) :
    distance_sample t a b a b 0 lT = none := by
  unfold distance_sample get_line_ellipse_x_intercept_standard
  cases h : get_line_ellipse_x_intercept_rotated t a b 0 lT with
  | none => rfl
  | some x =>
      simp only [Option.some_bind]
      unfold sweep_diff
      rw [if_pos (by rw [sub_self, abs_zero])]

/-- C5 counterexample: at identical ellipses (a = 2, b = 1, rotation 0) the
sample at sweep angle 0 is not 0 - it is the domain error. -/
theorem identical_ellipses_counterexample :
    distance_sample 0 2 1 2 1 0 20 ≠ some 0 := by
  have h2 : get_line_ellipse_x_intercept_rotated 0 2 1 0 20 = some 2 :=
    intercept_rotated_at_zero 2 1 20 (by norm_num) (by norm_num) (by norm_num)
  unfold distance_sample get_line_ellipse_x_intercept_standard
  rw [h2]
  simp only [Option.some_bind]
  unfold sweep_diff
  rw [if_pos (by norm_num)]
  exact fun h => Option.noConfusion h

/-- C3: whenever both intersections of a sweep step succeed, the reduction
returns hypot(delta.x, delta.y) * sign(delta.x) if delta.x is nonzero, and
the division-by-zero domain error (none) if delta.x = 0. -/
theorem sweep_reduction_sign (t a1 b1 a2 b2 T lT xo xi : ℝ)
    (ho : get_line_ellipse_x_intercept_standard t a1 b1 lT = some xo)
    (hi : get_line_ellipse_x_intercept_rotated t a2 b2 T lT = some xi) :
    (xo - xi ≠ 0 → distance_sample t a1 b1 a2 b2 T lT =
        some (Real.sqrt ((xo - xi) ^ 2 +
            (get_position_y_at_angle xo t - get_position_y_at_angle xi t) ^ 2) *
          Real.sign (xo - xi))) ∧
      (xo - xi = 0 → distance_sample t a1 b1 a2 b2 T lT = none) := by
  constructor
  · intro hdx
    unfold distance_sample
    rw [ho, hi]
    simp only [Option.some_bind]
    unfold sweep_diff
    rw [if_neg (by simpa [abs_eq_zero] using hdx)]
    have hsign : (xo - xi) / |xo - xi| = Real.sign (xo - xi) := by
      rcases lt_or_gt_of_ne hdx with h | h
      · rw [abs_of_neg h, Real.sign_of_neg h, div_neg, div_self hdx]
      · rw [abs_of_pos h, Real.sign_of_pos h, div_self hdx]
    rw [hsign]
  · intro h0
    unfold distance_sample
    rw [ho, hi]
    simp only [Option.some_bind]
    unfold sweep_diff
    rw [if_pos (by rw [h0, abs_zero])]

theorem sweep_reduction_sign_witness :
    distance_sample 0 2 1 1 1 0 20 =
      some (Real.sqrt (((2 : ℝ) - 1) ^ 2 +
          (get_position_y_at_angle 2 0 - get_position_y_at_angle 1 0) ^ 2) *
        Real.sign ((2 : ℝ) - 1)) := by
  have ho : get_line_ellipse_x_intercept_standard 0 2 1 20 = some 2 := by
    unfold get_line_ellipse_x_intercept_standard
    exact intercept_rotated_at_zero 2 1 20 (by norm_num) (by norm_num) (by norm_num)
  have hi : get_line_ellipse_x_intercept_rotated 0 1 1 0 20 = some 1 :=
    intercept_rotated_at_zero 1 1 20 (by norm_num) (by norm_num) (by norm_num)
  exact (sweep_reduction_sign 0 2 1 1 1 0 20 2 1 ho hi).1 (by norm_num)

/-- C4: for rotation 0 and every ray angle t outside {90, 270}, the
intersector (the rotated algorithm called with rotation = 0, which is exactly
`get_line_ellipse_x_intercept_standard`) agrees with the closed form
sqrt(a^2 b^2 / (b^2 + a^2 tan^2 t)) up to the per-quadrant sign - exactly,
hence within any floating tolerance. -/
theorem rotation_zero_closed_form (t a b lT : ℝ) (ha : 0 < a) (hb : 0 < b)
    (h90 : t ≠ 90) (h270 : t ≠ 270) :
    ∃ x, get_line_ellipse_x_intercept_standard t a b lT = some x ∧
      |x| = closed_form_x t a b := by
  have hA : intercept_A t a b 0 = b ^ 2 + a ^ 2 * Real.tan (radians t) ^ 2 := by
    unfold intercept_A
    rw [radians_zero]
    simp
  have hApos : 0 < intercept_A t a b 0 := intercept_A_pos t a b 0 ha hb
  have hbranch := intercept_general_branch_eq t a b 0 ha hb
  set A := intercept_A t a b 0 with hAdef
  have hAne : A ≠ 0 := ne_of_gt hApos
  set x0 := Real.sqrt (4 * A * a ^ 2 * b ^ 2) / (2 * A) with hx0
  have hdisc_pos : 0 < 4 * A * a ^ 2 * b ^ 2 :=
    mul_pos (mul_pos (by linarith) (pow_pos ha 2)) (pow_pos hb 2)
  have hx0nonneg : 0 ≤ x0 := div_nonneg (Real.sqrt_nonneg _) (by linarith)
  have hx0sq : x0 ^ 2 = a ^ 2 * b ^ 2 / A := by
    rw [hx0, div_pow, Real.sq_sqrt hdisc_pos.le]
    field_simp
    ring
  have hclosed : closed_form_x t a b = x0 := by
    unfold closed_form_x
    rw [← hA, ← hx0sq, Real.sqrt_sq hx0nonneg]
  unfold get_line_ellipse_x_intercept_standard get_line_ellipse_x_intercept_rotated
  rw [if_neg (by push_neg; exact ⟨h90, by norm_num⟩), hbranch, Option.map_some']
  refine ⟨quadrant_flip lT x0, rfl, ?_⟩
  unfold quadrant_flip
  split_ifs
  · rw [abs_neg, abs_of_nonneg hx0nonneg, hclosed]
  · rw [abs_of_nonneg hx0nonneg, hclosed]

theorem rotation_zero_closed_form_witness :
    ∃ x, get_line_ellipse_x_intercept_standard 0 2 1 20 = some x ∧
      |x| = closed_form_x 0 2 1 :=
  rotation_zero_closed_form 0 2 1 20 (by norm_num) (by norm_num) (by norm_num)
    (by norm_num)

/-- Supporting lemma for the intersector: whenever the rotation parameter is
not 270 (so the defective vertical-branch disjunct of source line 134 is not
triggered by it) and the intersector returns a value, that value together
with its ray ordinate lies exactly on the rotated ellipse.  At t = 90 the
intersector errors in the real model, so the hypothesis is vacuous there. -/
lemma intercept_point_on_ellipse (a b r t lT x : ℝ) (ha : 0 < a) (hb : 0 < b)
    (h270 : r ≠ 270)
    (hx : get_line_ellipse_x_intercept_rotated t a b r lT = some x) :
    ellipse_implicit_lhs x (get_position_y_at_angle x t) a b r = 1 := by
  have ha' : a ≠ 0 := ne_of_gt ha
  have hb' : b ≠ 0 := ne_of_gt hb
  unfold get_line_ellipse_x_intercept_rotated at hx
  by_cases hbr : t = 90 ∨ r = 270
  · rcases hbr with h | h
    · rw [if_pos (Or.inl h), h, y_intercept_at_90] at hx
      exact absurd hx (by simp)
    · exact absurd h h270
  · rw [if_neg hbr, intercept_general_branch_eq t a b r ha hb, Option.map_some'] at hx
    have hApos := intercept_A_pos t a b r ha hb
    set A := intercept_A t a b r with hAdef
    have hAne : A ≠ 0 := ne_of_gt hApos
    set x0 := Real.sqrt (4 * A * a ^ 2 * b ^ 2) / (2 * A) with hx0def
    simp only [Option.some.injEq] at hx
    have hdisc_pos : 0 < 4 * A * a ^ 2 * b ^ 2 :=
      mul_pos (mul_pos (by linarith) (pow_pos ha 2)) (pow_pos hb 2)
    have hx0sq : x0 ^ 2 = a ^ 2 * b ^ 2 / A := by
      rw [hx0def, div_pow, Real.sq_sqrt hdisc_pos.le]
      field_simp
      ring
    have hxsq : x ^ 2 = x0 ^ 2 := by
      rw [← hx]
      unfold quadrant_flip
      split_ifs <;> ring
    have hlhs : ellipse_implicit_lhs x (get_position_y_at_angle x t) a b r =
        x ^ 2 * A / (a ^ 2 * b ^ 2) := by
      rw [hAdef]
      unfold ellipse_implicit_lhs get_position_y_at_angle intercept_A
      field_simp
      ring
    rw [hlhs, hxsq, hx0sq]
    field_simp

/-- C1: evaluation of the intersector at the failing input a = 2, b = 1,
rotation r = 270, ray angle t = 45, global line angle lT = 20: the code takes
the vertical branch because of the `r == 270` disjunct and returns x = 2, a
point whose implicit-equation value is 5, far outside the 1e-6 tolerance of
the claim. -/
theorem intercept_r270_failing :
    get_line_ellipse_x_intercept_rotated 45 2 1 270 20 = some 2 ∧
      ellipse_implicit_lhs 2 (get_position_y_at_angle 2 45) 2 1 270 = 5 ∧
      ¬ |ellipse_implicit_lhs 2 (get_position_y_at_angle 2 45) 2 1 270 - 1| ≤
          1 / 1000000 := by
  have htan : Real.tan (radians 45) = 1 := by
    rw [radians_45]
    exact Real.tan_pi_div_four
  have hy : get_position_y_at_angle 2 45 = 2 := by
    unfold get_position_y_at_angle
    rw [htan]
    norm_num
  have hyA : y_intercept_A 2 1 270 = 1 := by
    unfold y_intercept_A
    rw [sin_radians_270, cos_radians_270]
    norm_num
  have hyB : y_intercept_B 2 1 270 0 = 0 := by
    unfold y_intercept_B
    ring
  have hyC : y_intercept_C 2 1 270 0 = -4 := by
    unfold y_intercept_C
    norm_num
  have hsq : Real.sqrt ((0 : ℝ) ^ 2 - 4 * 1 * (-4)) = 4 := by
    rw [show ((0 : ℝ) ^ 2 - 4 * 1 * (-4)) = 4 ^ 2 by norm_num]
    exact Real.sqrt_sq (by norm_num)
  have hvert : get_line_ellipse_y_intercept_rotated 45 2 1 270 0 = some 2 := by
    unfold get_line_ellipse_y_intercept_rotated
    rw [hyA, hyB, hyC, if_neg one_ne_zero, if_neg (by norm_num), hsq]
    unfold get_position_x_at_angle
    rw [htan, if_neg one_ne_zero]
    norm_num
  have hlhs : ellipse_implicit_lhs 2 (get_position_y_at_angle 2 45) 2 1 270 = 5 := by
    unfold ellipse_implicit_lhs
    rw [hy, sin_radians_270, cos_radians_270]
    norm_num
  refine ⟨?_, hlhs, by rw [hlhs]; norm_num⟩
  unfold get_line_ellipse_x_intercept_rotated
  rw [if_pos (Or.inr rfl), hvert, Option.map_some']
  unfold quadrant_flip
  rw [if_neg (by norm_num)]
